import Mathlib

/-!
Shallow embedding of the MCP server's query-classification and
provider-orchestration pipeline, together with theorems settling the
specification's claims about it.

The embedding follows the Python sources:
  * `src/query_analyzer.py` — the `QueryAnalyzer` class;
  * `src/main.py` (`get_context`, lines 152-253) — the orchestration loop;
  * `src/context_providers/*` — the provider classes and the factory.

Python floats are modelled as exact rationals (`Rat`); Python's `in`
substring test is modelled by `pyIn`; Python exceptions by explicit
`Except` values.
-/

/-- Python's substring containment `needle in haystack` on character lists:
true iff `needle` occurs as a contiguous sublist (the empty needle is
contained in everything, as in Python). -/
def charsContain (needle : List Char) : List Char → Bool
  | [] => needle.isEmpty
  | c :: t => needle.isPrefixOf (c :: t) || charsContain needle t

/-- Python's `needle in haystack` for strings. -/
def pyIn (needle haystack : String) : Bool :=
  charsContain needle.data haystack.data

/-- Python's `str.lower()` (ASCII, which covers every string in the source):
character-wise lower-casing.  Extensionally equal to `String.toLower`, but
defined by structural recursion over the character list so that concrete
instances evaluate by `decide`. -/
def pyLower (s : String) : String :=
  String.mk (s.data.map Char.toLower)

/-- `QueryType` enumeration (query_analyzer.py lines 6-11). -/
inductive QueryType
  | PRODUCT
  | CATEGORY
  | BRAND
  | SEARCH
  | GENERAL
deriving DecidableEq, Repr

/-- `QueryAnalysis` dataclass (query_analyzer.py lines 13-19).
Floats are modelled as rationals. -/
structure QueryAnalysis where
  query_type : QueryType
  confidence : Rat
  entities : List String
  suggested_providers : List String
  required_fields : List String
deriving DecidableEq, Repr

/-- `QueryAnalyzer._determine_query_type` (query_analyzer.py lines 58-71):
fixed-priority keyword scan, first matching set wins. -/
def determine_query_type (query : String) : QueryType :=
  let query := pyLower query
  if ["product", "item", "phone", "laptop", "device"].any (fun w => pyIn w query) then
    .PRODUCT
  else if ["category", "type", "kind"].any (fun w => pyIn w query) then
    .CATEGORY
  else if ["brand", "manufacturer", "company"].any (fun w => pyIn w query) then
    .BRAND
  else if ["search", "find", "look for"].any (fun w => pyIn w query) then
    .SEARCH
  else
    .GENERAL

/-- `QueryAnalyzer._extract_entities` (query_analyzer.py lines 73-96):
appends every matching term from the product, category and brand
vocabularies, in vocabulary-then-term order, no deduplication. -/
def extract_entities (query : String) : List String :=
  let query := pyLower query
  let product_terms := ["iphone", "samsung", "laptop", "phone", "tablet", "watch"]
  let category_terms := ["electronics", "phones", "computers", "accessories"]
  let brand_terms := ["apple", "samsung", "google", "microsoft"]
  product_terms.filter (fun t => pyIn t query)
    ++ category_terms.filter (fun t => pyIn t query)
    ++ brand_terms.filter (fun t => pyIn t query)

/-- `QueryAnalyzer._determine_required_fields` (query_analyzer.py lines 98-111). -/
def determine_required_fields (query_type : QueryType) (_entities : List String) :
    List String :=
  let base_fields := ["id", "name", "description"]
  match query_type with
  | .PRODUCT => base_fields ++ ["price", "specifications", "in_stock"]
  | .CATEGORY => base_fields ++ ["products"]
  | .BRAND => base_fields ++ ["products", "categories"]
  | .SEARCH => base_fields ++ ["price", "category", "brand"]
  | .GENERAL => base_fields

/-- `QueryAnalyzer._determine_providers` (query_analyzer.py lines 113-128):
"database" always, then "graphql" for PRODUCT/SEARCH, then "rest" for
CATEGORY/BRAND.  The `entities` argument is accepted but unused, as in the
source. -/
def determine_providers (query_type : QueryType) (_entities : List String) :
    List String :=
  ["database"]
    ++ (if query_type = .PRODUCT ∨ query_type = .SEARCH then ["graphql"] else [])
    ++ (if query_type = .CATEGORY ∨ query_type = .BRAND then ["rest"] else [])

/-- `QueryAnalyzer._calculate_confidence` (query_analyzer.py lines 130-142):
base 0.5, +0.2 for non-GENERAL, + min(0.1 × entity count, 0.3) for a
non-empty entity list, clamped to 1.0. -/
def calculate_confidence (query_type : QueryType) (entities : List String) : Rat :=
  let base_confidence : Rat := 1/2
  let base_confidence :=
    if query_type ≠ .GENERAL then base_confidence + 2/10 else base_confidence
  let base_confidence :=
    if entities ≠ [] then
      base_confidence + min ((entities.length : Rat) * (1/10)) (3/10)
    else base_confidence
  min base_confidence 1

/-- `QueryAnalyzer.analyze_query` (query_analyzer.py lines 31-56): lower-cases
the query and assembles the full analysis. -/
def analyze_query (query : String) : QueryAnalysis :=
  let query := pyLower query
  let query_type := determine_query_type query
  let entities := extract_entities query
  let required_fields := determine_required_fields query_type entities
  let suggested_providers := determine_providers query_type entities
  let confidence := calculate_confidence query_type entities
  { query_type := query_type
    confidence := confidence
    entities := entities
    suggested_providers := suggested_providers
    required_fields := required_fields }

/-! ## Context providers and the factory (src/context_providers/) -/

/-- The `ContextPayload` record shape returned by `DatabaseContextProvider`
and the three mock providers: a `data` component (provider-specific
structured value, kept as a type parameter), `source`, `query`, `fields`. -/
structure ContextPayload (δ : Type) where
  data : δ
  source : String
  query : String
  fields : List String
deriving Repr

/-- The payload shape returned by the production `GraphQLContextProvider`
and `RESTContextProvider`: their dicts carry no `fields` component
(graphql.py lines 47-51, rest.py lines 30-34). -/
structure ContextPayloadNoFields (δ : Type) where
  data : δ
  source : String
  query : String
deriving Repr

/-- `MockDatabaseContextProvider.get_context` (mock_database.py lines 17-37).
`search_result` stands for the record of matching products, categories and
brands computed from the MOCK data (its computation — Python `str()`
rendering of heterogeneous dict values followed by substring match — is
abstracted as a parameter; no claim depends on it).  The `source`, `query`
and `fields` components are literal from the source. -/
def mockDatabase_get_context {δ : Type} (search_result : δ) (query : String)
    (required_fields : List String) : ContextPayload δ :=
  { data := search_result
    source := "mock_database"
    query := pyLower query
    fields := required_fields }

/-- `MockGraphQLContextProvider.get_context` (mock_graphql.py lines 15-31);
`matching` abstracts the list of matching mock responses. -/
def mockGraphql_get_context {δ : Type} (matching : δ) (query : String)
    (required_fields : List String) : ContextPayload δ :=
  { data := matching
    source := "mock_graphql"
    query := pyLower query
    fields := required_fields }

/-- `MockRESTContextProvider.get_context` (mock_rest.py lines 15-31);
`matching` abstracts the list of matching mock responses. -/
def mockRest_get_context {δ : Type} (matching : δ) (query : String)
    (required_fields : List String) : ContextPayload δ :=
  { data := matching
    source := "mock_rest"
    query := pyLower query
    fields := required_fields }

/-- `DatabaseContextProvider.get_context` (database.py lines 25-53);
`rows` abstracts the SQL query result.  Note: the query is not lower-cased
here, matching the source. -/
def database_get_context {δ : Type} (rows : δ) (query : String)
    (required_fields : List String) : ContextPayload δ :=
  { data := rows
    source := "database"
    query := query
    fields := required_fields }

/-- `GraphQLContextProvider.get_context` (graphql.py lines 17-51);
`result` abstracts the HTTP response data.  No `fields` component. -/
def graphql_get_context {δ : Type} (result : δ) (query : String) :
    ContextPayloadNoFields δ :=
  { data := result
    source := "graphql"
    query := query }

/-- `RESTContextProvider.get_context` (rest.py lines 16-34);
`result` abstracts the HTTP response data.  No `fields` component. -/
def rest_get_context {δ : Type} (result : δ) (query : String) :
    ContextPayloadNoFields δ :=
  { data := result
    source := "rest"
    query := query }

/-- The two deployment environments the factory distinguishes
(provider_factory.py line 45, default "development"). -/
inductive Environment
  | production
  | development
deriving DecidableEq, Repr

/-- The six concrete provider classes (provider_factory.py lines 3-9). -/
inductive ProviderClass
  | DatabaseContextProvider
  | MockDatabaseContextProvider
  | GraphQLContextProvider
  | MockGraphQLContextProvider
  | RESTContextProvider
  | MockRESTContextProvider
deriving DecidableEq, Repr

/-- The registered provider identifiers: the keys of
`ProviderFactory._providers` (provider_factory.py lines 15-28). -/
def registered_provider_keys : List String := ["database", "graphql", "rest"]

/-- `ProviderFactory._providers` (provider_factory.py lines 15-28) as a
mapping from provider key and environment to the class the factory
instantiates. -/
def factory_providers : String → Environment → Option ProviderClass
  | "database", .production => some .DatabaseContextProvider
  | "database", .development => some .MockDatabaseContextProvider
  | "graphql", .production => some .GraphQLContextProvider
  | "graphql", .development => some .MockGraphQLContextProvider
  | "rest", .production => some .RESTContextProvider
  | "rest", .development => some .MockRESTContextProvider
  | _, _ => none

/-- The constant each class's `get_context` places in the `source`
component of every payload it returns (database.py line 50,
mock_database.py line 34, graphql.py line 49, mock_graphql.py line 28,
rest.py line 32, mock_rest.py line 28). -/
def class_source : ProviderClass → String
  | .DatabaseContextProvider => "database"
  | .MockDatabaseContextProvider => "mock_database"
  | .GraphQLContextProvider => "graphql"
  | .MockGraphQLContextProvider => "mock_graphql"
  | .RESTContextProvider => "rest"
  | .MockRESTContextProvider => "mock_rest"

example {δ : Type} (d : δ) (q : String) (f : List String) :
    (mockDatabase_get_context d q f).source
      = class_source .MockDatabaseContextProvider := rfl

example {δ : Type} (d : δ) (q : String) (f : List String) :
    (database_get_context d q f).source = class_source .DatabaseContextProvider := rfl

example {δ : Type} (d : δ) (q : String) :
    (graphql_get_context d q).source = class_source .GraphQLContextProvider := rfl

example {δ : Type} (d : δ) (q : String) :
    (rest_get_context d q).source = class_source .RESTContextProvider := rfl

example {δ : Type} (d : δ) (q : String) (f : List String) :
    (mockGraphql_get_context d q f).source
      = class_source .MockGraphQLContextProvider := rfl

example {δ : Type} (d : δ) (q : String) (f : List String) :
    (mockRest_get_context d q f).source = class_source .MockRESTContextProvider := rfl

/-! ## The orchestration loop (src/main.py, `get_context`, lines 152-253) -/

/-- Observable calls the request handler makes on its collaborators. -/
inductive Event
  | validateCall (provider : String)
  | fetchCall (provider : String)
  | generateCall
deriving DecidableEq, Repr

/-- The behaviour of one provider instance during a single request:
the result of `await provider.validate_connection()` and the result of
`await provider.get_context(...)` (`Except.error` models the call raising
an exception, carrying its message). -/
structure CapBehavior (α : Type) where
  validate : Bool
  fetch : Except String α

/-- Python exceptions distinguished by the handler: `fastapi.HTTPException`
with its status code and detail, and the `KeyError` raised by
`providers[provider_type]` (main.py line 191) when the key is absent. -/
inductive PyExc
  | httpExc (status : Nat) (detail : String)
  | keyError (key : String)
deriving DecidableEq, Repr

/-- The error the caller finally sees: the `except Exception` handler at
main.py lines 251-253 re-raises every exception `e` — including
`HTTPException`s raised earlier in the body, since `HTTPException`
subclasses `Exception` — as `HTTPException(status_code=500, detail=str(e))`.
`status` is that final status code and `cause` the caught exception
(whose `str()` rendering becomes the detail). -/
structure SurfacedError where
  status : Nat
  cause : PyExc
deriving DecidableEq, Repr

/-- The provider-fallback loop (main.py lines 189-210): iterate the
suggested providers; `providers[provider_type]` raises `KeyError` on an
absent key; skip a provider whose validation fails; on a fetch exception
log and continue; on a fetch result stop.  Returns the trace of
validate/fetch calls and either the raised exception or
`context_data`/`used_provider` (`none` when the list is exhausted without
a fetch result, i.e. `context_data` stays `None`). -/
def try_providers {α : Type} (caps : String → Option (CapBehavior α)) :
    List String → List Event × Except PyExc (Option (α × String))
  | [] => ([], .ok none)
  | p :: rest =>
    match caps p with
    | none => ([], .error (.keyError p))
    | some cap =>
      if cap.validate then
        match cap.fetch with
        | .ok ctx => ([.validateCall p, .fetchCall p], .ok (some (ctx, p)))
        | .error _ =>
          let r := try_providers caps rest
          (.validateCall p :: .fetchCall p :: r.1, r.2)
      else
        let r := try_providers caps rest
        (.validateCall p :: r.1, r.2)

/-- Detail string of the `HTTPException(503)` raised when no provider
produced usable context (main.py lines 214-217). -/
def no_provider_detail : String := "No available providers could handle the query"

/-- `OllamaModelProvider.AVAILABLE_MODELS` keys (ollama.py lines 11-13). -/
def AVAILABLE_MODELS : List String := ["llama2"]

/-- The fields of the `ContextResponse` returned on success (main.py lines
235-250); the static timestamp is omitted. -/
structure ContextResponse (α : Type) where
  context : α
  metadata_model : String
  metadata_provider : Option String
  analysis_query_type : QueryType
  analysis_confidence : Rat
  analysis_entities : List String
  analysis_suggested_providers : List String
  analysis_used_provider : Option String
  response : String

/-- The body of the `try` block of `get_context` (main.py lines 171-250):
model validation (the rendered list of available models in the 400 detail
is abbreviated), query analysis, the provider loop, the
`if not context_data` check (a falsy payload — `truthy ctx = false` — is
treated like no payload), and response generation (`generate` models
`model_provider.generate_response` for this request; a raising call is
re-raised as `HTTPException(500)`, main.py lines 228-233). -/
def get_context_inner {α : Type} (truthy : α → Bool)
    (generate : String → α → Except String String)
    (caps : String → Option (CapBehavior α))
    (query model : String) : List Event × Except PyExc (ContextResponse α) :=
  if AVAILABLE_MODELS.contains model = false then
    ([], .error (.httpExc 400 (String.append (String.append "Model " model)
      " not available")))
  else
    let analysis := analyze_query query
    match try_providers caps analysis.suggested_providers with
    | (tr, .error e) => (tr, .error e)
    | (tr, .ok none) => (tr, .error (.httpExc 503 no_provider_detail))
    | (tr, .ok (some (ctx, used))) =>
      if truthy ctx = false then
        (tr, .error (.httpExc 503 no_provider_detail))
      else
        match generate query ctx with
        | .error msg =>
          (tr ++ [.generateCall],
           .error (.httpExc 500 (String.append "Error generating model response: " msg)))
        | .ok text =>
          (tr ++ [.generateCall],
           .ok { context := ctx
                 metadata_model := model
                 metadata_provider := some used
                 analysis_query_type := analysis.query_type
                 analysis_confidence := analysis.confidence
                 analysis_entities := analysis.entities
                 analysis_suggested_providers := analysis.suggested_providers
                 analysis_used_provider := some used
                 response := text })

/-- The whole `get_context` handler: the inner body wrapped by the
catch-all `except Exception` (main.py lines 251-253), which re-raises any
exception as `HTTPException(500, str(e))`. -/
def get_context {α : Type} (truthy : α → Bool)
    (generate : String → α → Except String String)
    (caps : String → Option (CapBehavior α))
    (query model : String) : List Event × Except SurfacedError (ContextResponse α) :=
  match get_context_inner truthy generate caps query model with
  | (tr, .ok r) => (tr, .ok r)
  | (tr, .error e) => (tr, .error ⟨500, e⟩)

/-! ## Concrete capability behaviours used in closed instances -/

/-- Capabilities where "database" is absent and "rest" is healthy. -/
def capsAbsentDb : String → Option (CapBehavior Unit) :=
  fun p => if p = "rest" then some ⟨true, .ok ()⟩ else none

/-- Capabilities where every provider is present but unhealthy
(validation returns false). -/
def capsAllInvalid : String → Option (CapBehavior Unit) :=
  fun _ => some ⟨false, .error "down"⟩

/-- Capabilities where "database" validates and fetches successfully. -/
def capsDbOk : String → Option (CapBehavior Unit) :=
  fun p => if p = "database" then some ⟨true, .ok ()⟩ else none

example : (analyze_query "Tell me about iPhone 15").entities = ["iphone", "phone"] := by
  decide

example : (analyze_query "Tell me about iPhone 15").query_type = .PRODUCT := by
  decide

example : (analyze_query "Tell me about iPhone 15").suggested_providers
    = ["database", "graphql"] := by decide

example : (analyze_query "Tell me about iPhone 15").confidence = 9/10 := by
  have he : extract_entities (pyLower "Tell me about iPhone 15") = ["iphone", "phone"] := by
    decide
  have ht : determine_query_type (pyLower "Tell me about iPhone 15") = .PRODUCT := by
    decide
  simp [analyze_query, calculate_confidence, he, ht, min_def]
  norm_num

/-! ## Specification-side reformulation for the refinement claim C4 -/

/-- The four keyword sets in their scan order, paired with the category
each one selects (spec §4.1). -/
def category_scan_table : List (QueryType × List String) :=
  [(.PRODUCT, ["product", "item", "phone", "laptop", "device"]),
   (.CATEGORY, ["category", "type", "kind"]),
   (.BRAND, ["brand", "manufacturer", "company"]),
   (.SEARCH, ["search", "find", "look for"])]

/-- Category selection as the spec words it: scan the table in its fixed
order, the first set with a member contained in the lower-cased query wins,
default GENERAL.  Written via `List.find?` so that it is a genuinely
different formulation from `determine_query_type`. -/
def category_first_match_spec (query : String) : QueryType :=
  match category_scan_table.find? (fun e => e.2.any (fun w => pyIn w (pyLower query))) with
  | some e => e.1
  | none => .GENERAL

/-! ## Helper lemmas -/

@[simp] theorem analyze_query_query_type (q : String) :
    (analyze_query q).query_type = determine_query_type (pyLower q) := rfl

@[simp] theorem analyze_query_entities (q : String) :
    (analyze_query q).entities = extract_entities (pyLower q) := rfl

@[simp] theorem analyze_query_confidence (q : String) :
    (analyze_query q).confidence
      = calculate_confidence (determine_query_type (pyLower q))
          (extract_entities (pyLower q)) := rfl

@[simp] theorem analyze_query_suggested (q : String) :
    (analyze_query q).suggested_providers
      = determine_providers (determine_query_type (pyLower q))
          (extract_entities (pyLower q)) := rfl

@[simp] theorem analyze_query_required_fields (q : String) :
    (analyze_query q).required_fields
      = determine_required_fields (determine_query_type (pyLower q))
          (extract_entities (pyLower q)) := rfl

theorem try_providers_skip_invalid {α : Type} (caps : String → Option (CapBehavior α))
    (pre rest : List String)
    (h : ∀ q ∈ pre, ∃ c, caps q = some c ∧ c.validate = false) :
    try_providers caps (pre ++ rest)
      = (pre.map Event.validateCall ++ (try_providers caps rest).1,
         (try_providers caps rest).2) := by
  induction pre with
  | nil => simp
  | cons p ps ih =>
    obtain ⟨c, hc, hv⟩ := h p (List.mem_cons_self p ps)
    have ih2 := ih (fun q hq => h q (List.mem_cons_of_mem p hq))
    simp [try_providers, hc, hv, ih2]

theorem calculate_confidence_eq (t : QueryType) (es : List String) :
    calculate_confidence t es
      = min ((1:Rat)/2 + (if t ≠ .GENERAL then 2/10 else 0)
          + (if es ≠ [] then min ((es.length : Rat) * (1/10)) (3/10) else 0)) 1 := by
  unfold calculate_confidence
  by_cases h1 : t = QueryType.GENERAL <;> by_cases h2 : es = [] <;>
    simp [h1, h2]

theorem calculate_confidence_le_one (t : QueryType) (es : List String) :
    calculate_confidence t es ≤ 1 := by
  unfold calculate_confidence
  exact min_le_right _ _

theorem half_le_calculate_confidence (t : QueryType) (es : List String) :
    1/2 ≤ calculate_confidence t es := by
  have hmin : (0:Rat) ≤ min ((es.length : Rat) * (1/10)) (3/10) :=
    le_min (by positivity) (by norm_num)
  unfold calculate_confidence
  refine le_min ?_ (by norm_num)
  by_cases h1 : t = QueryType.GENERAL <;> by_cases h2 : es = [] <;>
    simp [h1, h2] <;> linarith [hmin]

theorem calculate_confidence_mono (t : QueryType) {e1 e2 : List String}
    (h : e1.length ≤ e2.length) :
    calculate_confidence t e1 ≤ calculate_confidence t e2 := by
  have hmin2 : (0:Rat) ≤ min ((e2.length : Rat) * (1/10)) (3/10) :=
    le_min (by positivity) (by norm_num)
  have hmul : ((e1.length : Rat)) * (1/10) ≤ (e2.length : Rat) * (1/10) := by
    have : ((e1.length : Rat)) ≤ (e2.length : Rat) := by exact_mod_cast h
    linarith
  rw [calculate_confidence_eq, calculate_confidence_eq]
  refine min_le_min ?_ le_rfl
  have hb : (if e1 ≠ [] then min ((e1.length : Rat) * (1/10)) (3/10) else 0)
      ≤ (if e2 ≠ [] then min ((e2.length : Rat) * (1/10)) (3/10) else 0) := by
    by_cases h1 : e1 = []
    · by_cases h2 : e2 = []
      · simp [h1, h2]
      · simp [h1, h2]
        linarith [hmin2]
    · have h2 : e2 ≠ [] := by
        intro h2
        apply h1
        refine List.eq_nil_of_length_eq_zero (Nat.le_zero.mp ?_)
        calc e1.length ≤ e2.length := h
        _ = 0 := by rw [h2]; rfl
      have hmm : min ((e1.length : Rat) * (1/10)) (3/10)
          ≤ min ((e2.length : Rat) * (1/10)) (3/10) :=
        min_le_min hmul le_rfl
      rw [if_pos h1, if_pos h2]
      exact hmm
  linarith [hb]

/-! ## Claims -/

/-- C1 (counterexample): for the query "Tell me about iPhone 15" the
extracted entity list is not exactly ["iphone"]: substring matching also
catches "phone" inside "iphone", so the list is ["iphone", "phone"]. -/
theorem C1_counterexample :
    (analyze_query "Tell me about iPhone 15").entities ≠ ["iphone"] := by
  decide

/-- C1 (amended): for the query "Tell me about iPhone 15" the classifier
returns category PRODUCT, the entity list exactly ["iphone", "phone"]
(the term "phone" also matches, as a substring of "iphone"), the
suggested-provider list exactly ["database", "graphql"], and a
required-fields list containing "specifications". -/
theorem C1_scenario :
    (analyze_query "Tell me about iPhone 15").query_type = .PRODUCT
    ∧ (analyze_query "Tell me about iPhone 15").entities = ["iphone", "phone"]
    ∧ (analyze_query "Tell me about iPhone 15").suggested_providers
        = ["database", "graphql"]
    ∧ "specifications" ∈ (analyze_query "Tell me about iPhone 15").required_fields := by
  refine ⟨by decide, by decide, by decide, by decide⟩

/-- C2 (counterexample): with "database" absent from the capabilities
mapping and a healthy "rest" provider next in line, the request for
"electronics category" (suggested providers ["database", "rest"]) does not
skip the absent identifier: it aborts with the KeyError wrapped into an
HTTP 500 error, and no call is ever made to "rest" (the trace is empty).
Absence is fatal to the request, contradicting the claim. -/
theorem C2_counterexample :
    capsAbsentDb "database" = none
    ∧ capsAbsentDb "rest" = some ⟨true, .ok ()⟩
    ∧ (analyze_query "electronics category").suggested_providers = ["database", "rest"]
    ∧ (get_context (fun _ : Unit => true) (fun _ _ => .ok "ok") capsAbsentDb
        "electronics category" "llama2").2 = .error ⟨500, .keyError "database"⟩
    ∧ (get_context (fun _ : Unit => true) (fun _ _ => .ok "ok") capsAbsentDb
        "electronics category" "llama2").1 = [] :=
  ⟨rfl, rfl, rfl, rfl, rfl⟩

/-- C2 (amended): when the orchestration loop reaches a provider identifier
absent from the capabilities mapping (after any prefix of present but
invalid providers), `providers[provider_type]` raises KeyError: the loop
stops there — no later candidate is consulted — and the request fails with
an HTTP 500 error carrying that KeyError; the absence is fatal to the
request. -/
theorem C2_absent_provider_fatal {α : Type} (caps : String → Option (CapBehavior α))
    (pre : List String) (p : String) (rest : List String)
    (hpre : ∀ q ∈ pre, ∃ c, caps q = some c ∧ c.validate = false)
    (hp : caps p = none) :
    try_providers caps (pre ++ p :: rest)
      = (pre.map Event.validateCall, .error (.keyError p))
    ∧ ∀ (truthy : α → Bool) (generate : String → α → Except String String)
        (query model : String),
        (analyze_query query).suggested_providers = pre ++ p :: rest →
        AVAILABLE_MODELS.contains model = true →
        (get_context truthy generate caps query model).2 = .error ⟨500, .keyError p⟩ := by
  have h1 : try_providers caps (p :: rest) = ([], .error (.keyError p)) := by
    simp [try_providers, hp]
  have h2 := try_providers_skip_invalid caps pre (p :: rest) hpre
  rw [h1] at h2
  have hloop : try_providers caps (pre ++ p :: rest)
      = (pre.map Event.validateCall, .error (.keyError p)) := by simpa using h2
  refine ⟨hloop, ?_⟩
  intro truthy generate query model hs hm
  simp only [get_context, get_context_inner, hm, hs, hloop]
  simp

/-- C2 (witness for the amended theorem). -/
theorem C2_absent_provider_fatal_witness :
    (get_context (fun _ : Unit => true) (fun _ _ => .ok "ok") capsAbsentDb
        "electronics category" "llama2").2 = .error ⟨500, .keyError "database"⟩ :=
  (C2_absent_provider_fatal capsAbsentDb [] "database" ["rest"]
      (by simp) rfl).2
    (fun _ => true) (fun _ _ => .ok "ok") "electronics category" "llama2"
    (by decide) (by decide)

/-- C3 (counterexample): in the development environment the factory
constructs `MockDatabaseContextProvider` for the key "database", and the
payloads its `get_context` produces carry source "mock_database", which is
not one of the registered provider keys. -/
theorem C3_counterexample :
    factory_providers "database" .development = some .MockDatabaseContextProvider
    ∧ (mockDatabase_get_context () "iphone" ["id"]).source = "mock_database"
    ∧ "mock_database" ∉ registered_provider_keys := by
  refine ⟨rfl, rfl, by decide⟩

/-- C3 (amended): a payload's source is the registered key only for the
production providers; each development (mock) provider stamps its payloads
with "mock_" prefixed to the key, which is not a registered key.  The
second part records that each embedded `get_context` stamps exactly the
constant `class_source` assigns to its class. -/
theorem C3_source_by_environment :
    (∀ (key : String) (env : Environment) (c : ProviderClass),
        factory_providers key env = some c →
          (env = .production →
            class_source c = key ∧ class_source c ∈ registered_provider_keys)
          ∧ (env = .development →
            class_source c = String.append "mock_" key
            ∧ class_source c ∉ registered_provider_keys))
    ∧ (∀ (δ : Type) (d : δ) (q : String) (f : List String),
        (mockDatabase_get_context d q f).source
            = class_source .MockDatabaseContextProvider
        ∧ (mockGraphql_get_context d q f).source
            = class_source .MockGraphQLContextProvider
        ∧ (mockRest_get_context d q f).source
            = class_source .MockRESTContextProvider
        ∧ (database_get_context d q f).source
            = class_source .DatabaseContextProvider
        ∧ (graphql_get_context d q).source
            = class_source .GraphQLContextProvider
        ∧ (rest_get_context d q).source
            = class_source .RESTContextProvider) := by
  constructor
  · intro key env c hc
    unfold factory_providers at hc
    split at hc
    all_goals first
      | (injection hc with hc; subst hc; decide)
      | injection hc
  · intro δ d q f
    exact ⟨rfl, rfl, rfl, rfl, rfl, rfl⟩

/-- C3 (witness for the amended theorem). -/
theorem C3_source_by_environment_witness :
    class_source ProviderClass.MockDatabaseContextProvider
        = String.append "mock_" "database"
    ∧ class_source ProviderClass.MockDatabaseContextProvider
        ∉ registered_provider_keys :=
  (C3_source_by_environment.1 "database" .development .MockDatabaseContextProvider
    rfl).2 rfl

/-- C4 (confirmed): the category is decided by membership tests against the
term sets in the fixed order Product, Category, Brand, Search, default
General, first match winning — stated as agreement with the table-scan
formulation `category_first_match_spec` — and consequently a query
containing both a Product term and a Brand term is classified PRODUCT. -/
theorem C4_fixed_priority_scan :
    (∀ q : String, determine_query_type q = category_first_match_spec q)
    ∧ ∀ q : String,
        (["product", "item", "phone", "laptop", "device"].any
          (fun w => pyIn w (pyLower q))) = true →
        (["brand", "manufacturer", "company"].any
          (fun w => pyIn w (pyLower q))) = true →
        determine_query_type q = .PRODUCT := by
  constructor
  · intro q
    cases h1 : (["product", "item", "phone", "laptop", "device"].any
        (fun w => pyIn w (pyLower q))) <;>
    cases h2 : (["category", "type", "kind"].any (fun w => pyIn w (pyLower q))) <;>
    cases h3 : (["brand", "manufacturer", "company"].any
        (fun w => pyIn w (pyLower q))) <;>
    cases h4 : (["search", "find", "look for"].any (fun w => pyIn w (pyLower q))) <;>
    simp [determine_query_type, category_first_match_spec, category_scan_table,
      List.find?, h1, h2, h3, h4]
  · intro q h1 _
    simp [determine_query_type, h1]

/-- C4 (witness): "phone brand" contains the Product term "phone" and the
Brand term "brand" and is classified PRODUCT. -/
theorem C4_fixed_priority_scan_witness :
    determine_query_type "phone brand" = .PRODUCT :=
  C4_fixed_priority_scan.2 "phone brand" (by decide) (by decide)

/-- C5 (confirmed): for every query the stored confidence equals 0.5, plus
0.2 when the category is not GENERAL, plus min(0.1 × entity count, 0.3)
when the entity list is non-empty, clamped to at most 1; and it always lies
in [0.5, 1]. -/
theorem C5_confidence_formula (q : String) :
    (analyze_query q).confidence
      = min ((1:Rat)/2
          + (if (analyze_query q).query_type ≠ .GENERAL then 2/10 else 0)
          + (if (analyze_query q).entities ≠ [] then
              min (((analyze_query q).entities.length : Rat) * (1/10)) (3/10)
             else 0)) 1
    ∧ 1/2 ≤ (analyze_query q).confidence
    ∧ (analyze_query q).confidence ≤ 1 := by
  simp only [analyze_query_query_type, analyze_query_entities, analyze_query_confidence]
  exact ⟨calculate_confidence_eq _ _, half_le_calculate_confidence _ _,
    calculate_confidence_le_one _ _⟩

/-- C6 (confirmed): with the category held fixed, confidence is monotone in
the number of extracted entities: if two queries classify to the same
category and one's entity list is at least as long, its confidence is at
least the other's. -/
theorem C6_confidence_monotone (q1 q2 : String)
    (hty : (analyze_query q1).query_type = (analyze_query q2).query_type)
    (hlen : (analyze_query q1).entities.length ≤ (analyze_query q2).entities.length) :
    (analyze_query q1).confidence ≤ (analyze_query q2).confidence := by
  simp only [analyze_query_query_type, analyze_query_entities,
    analyze_query_confidence] at hty hlen ⊢
  rw [hty]
  exact calculate_confidence_mono _ hlen

/-- C6 (witness): "phone" and "apple phone" both classify PRODUCT; the
latter matches two entity terms against the former's one, and its
confidence is at least as large. -/
theorem C6_confidence_monotone_witness :
    (analyze_query "phone").confidence ≤ (analyze_query "apple phone").confidence :=
  C6_confidence_monotone "phone" "apple phone" (by decide) (by decide)

/-- C7 (confirmed): for every category (and any entity list, which the
ranking ignores) the provider list is non-empty with "database" first;
"graphql" is a member exactly for PRODUCT and SEARCH, and "rest" exactly
for CATEGORY and BRAND. -/
theorem C7_rank_providers (t : QueryType) (es : List String) :
    determine_providers t es ≠ []
    ∧ (determine_providers t es).head? = some "database"
    ∧ ("graphql" ∈ determine_providers t es ↔ t = .PRODUCT ∨ t = .SEARCH)
    ∧ ("rest" ∈ determine_providers t es ↔ t = .CATEGORY ∨ t = .BRAND) := by
  cases t <;> simp [determine_providers]

/-- C8 (confirmed): if the first candidate in the suggested list is present,
validates, and its fetch returns a payload, the loop stops there: its trace
holds exactly the validate and fetch calls on that candidate, so no later
candidate ever receives a validate or fetch call. -/
theorem C8_first_success_short_circuit {α : Type}
    (caps : String → Option (CapBehavior α)) (p : String) (rest : List String)
    (c : CapBehavior α) (ctx : α)
    (hc : caps p = some c) (hv : c.validate = true) (hf : c.fetch = .ok ctx) :
    try_providers caps (p :: rest)
      = ([.validateCall p, .fetchCall p], .ok (some (ctx, p)))
    ∧ ∀ q : String, q ≠ p →
        Event.validateCall q ∉ (try_providers caps (p :: rest)).1
        ∧ Event.fetchCall q ∉ (try_providers caps (p :: rest)).1 := by
  have h : try_providers caps (p :: rest)
      = ([.validateCall p, .fetchCall p], .ok (some (ctx, p))) := by
    simp [try_providers, hc, hv, hf]
  refine ⟨h, ?_⟩
  intro q hq
  rw [h]
  constructor <;> simp [hq]

/-- C8 (witness): with a healthy "database" capability, the loop over
["database", "graphql"] touches only "database". -/
theorem C8_first_success_short_circuit_witness :
    try_providers capsDbOk ["database", "graphql"]
      = ([.validateCall "database", .fetchCall "database"], .ok (some ((), "database"))) :=
  (C8_first_success_short_circuit capsDbOk "database" ["graphql"]
    ⟨true, .ok ()⟩ () rfl rfl rfl).1

/-- C9 (code bug, evaluated at the failing input): with every provider
present but failing validation, the request for "Tell me about iPhone 15"
with model "llama2" raises HTTPException(503) — the no-provider outcome the
code intends to surface — but the catch-all handler re-raises it, so the
caller sees status 500, not a service-unavailable 503; the trace shows that
no fetch and no generation call is ever made. -/
theorem C9_all_invalid_surfaces_500 :
    (get_context_inner (fun _ : Unit => true) (fun _ _ => .ok "ok") capsAllInvalid
        "Tell me about iPhone 15" "llama2").2
      = .error (.httpExc 503 no_provider_detail)
    ∧ (get_context (fun _ : Unit => true) (fun _ _ => .ok "ok") capsAllInvalid
        "Tell me about iPhone 15" "llama2").2
      = .error ⟨500, .httpExc 503 no_provider_detail⟩
    ∧ (get_context (fun _ : Unit => true) (fun _ _ => .ok "ok") capsAllInvalid
        "Tell me about iPhone 15" "llama2").1
      = [.validateCall "database", .validateCall "graphql"] :=
  ⟨rfl, rfl, rfl⟩

/-- C10 (confirmed): if the first provider that validates fetches
successfully but returns a falsy payload, the loop breaks there, the
`if not context_data` check fires and the request ends in the
no-provider-available failure (HTTPException(503), surfaced as 500 by the
catch-all), with the remaining suggested providers never attempted — the
trace ends at that provider's fetch call. -/
theorem C10_falsy_payload_terminal {α : Type}
    (caps : String → Option (CapBehavior α)) (pre : List String) (p : String)
    (rest : List String) (c : CapBehavior α) (ctx : α)
    (truthy : α → Bool) (generate : String → α → Except String String)
    (query model : String)
    (hpre : ∀ q ∈ pre, ∃ cap, caps q = some cap ∧ cap.validate = false)
    (hc : caps p = some c) (hv : c.validate = true) (hf : c.fetch = .ok ctx)
    (ht : truthy ctx = false)
    (hs : (analyze_query query).suggested_providers = pre ++ p :: rest)
    (hm : AVAILABLE_MODELS.contains model = true) :
    (get_context truthy generate caps query model).2
      = .error ⟨500, .httpExc 503 no_provider_detail⟩
    ∧ (get_context truthy generate caps query model).1
      = pre.map Event.validateCall ++ [.validateCall p, .fetchCall p] := by
  have h1 : try_providers caps (p :: rest)
      = ([.validateCall p, .fetchCall p], .ok (some (ctx, p))) := by
    simp [try_providers, hc, hv, hf]
  have h2 := try_providers_skip_invalid caps pre (p :: rest) hpre
  rw [h1] at h2
  simp only [get_context, get_context_inner, hm, hs, h2]
  simp [ht]

/-- C10 (witness): "database" validates and fetches a falsy payload for
"electronics category"; the request fails with the no-provider outcome and
"rest" is never attempted. -/
theorem C10_falsy_payload_terminal_witness :
    (get_context (fun _ : Unit => false) (fun _ _ => .ok "ok") capsDbOk
        "electronics category" "llama2").2
      = .error ⟨500, .httpExc 503 no_provider_detail⟩
    ∧ (get_context (fun _ : Unit => false) (fun _ _ => .ok "ok") capsDbOk
        "electronics category" "llama2").1
      = [.validateCall "database", .fetchCall "database"] :=
  C10_falsy_payload_terminal capsDbOk [] "database" ["rest"] ⟨true, .ok ()⟩ ()
    (fun _ => false) (fun _ _ => .ok "ok") "electronics category" "llama2"
    (by simp) rfl rfl rfl rfl (by decide) (by decide)
